import Mathlib

/-!
Verification of the Albert GNOME Settings plugin
(`src/gnome_settings/__init__.py`).

The plugin keeps a static table `settings_pages` mapping page ids to
records `{title, description, command}` and answers two kinds of queries:

* `handleTriggerQuery` — permissive substring search over id, lower-cased
  title and lower-cased description (empty query lists the whole table);
* `handleGlobalQuery` — strict search: the normalized query must be a
  single run of word characters (regex `^\s*(?P<query>\w+)\s*$`) and an
  exact key of the table; a hit is returned with the fixed score 100.

The embedding below translates the module's pure query logic directly.
Python strings are Lean `String`s; `str.strip().lower()` is modelled on
the character list (ASCII case mapping — the catalog and all inputs of
interest are ASCII); the dictionary is an insertion-ordered association
list, matching Python's preserved insertion order; the process-spawning
callable of each action is represented by the argument vector it would
pass to `subprocess.Popen`.
-/

namespace GnomeSettings

/-- Python's `\w` word-character class as the plugin's regex uses it, on
the ASCII range: letters, digits and underscore.  (Python's `\w` also
matches non-ASCII word characters; the catalog is pure ASCII.) -/
def isWordChar (c : Char) : Bool := c.isAlphanum || c == '_'

/-- ASCII lowercasing of one character, as Python's `str.lower()` acts on
the ASCII range (non-ASCII case mappings are not modelled; every string
the module stores or compares is ASCII). -/
def pyLowerChar (c : Char) : Char :=
  match c with
  | 'A' => 'a' | 'B' => 'b' | 'C' => 'c' | 'D' => 'd' | 'E' => 'e'
  | 'F' => 'f' | 'G' => 'g' | 'H' => 'h' | 'I' => 'i' | 'J' => 'j'
  | 'K' => 'k' | 'L' => 'l' | 'M' => 'm' | 'N' => 'n' | 'O' => 'o'
  | 'P' => 'p' | 'Q' => 'q' | 'R' => 'r' | 'S' => 's' | 'T' => 't'
  | 'U' => 'u' | 'V' => 'v' | 'W' => 'w' | 'X' => 'x' | 'Y' => 'y'
  | 'Z' => 'z'
  | c => c

/-- Python `str.lower()`. -/
def pyLower (s : String) : String := ⟨s.data.map pyLowerChar⟩

/-- Python `str.strip()` on the character list: remove leading and
trailing whitespace. -/
def stripList (l : List Char) : List Char :=
  ((l.dropWhile Char.isWhitespace).reverse.dropWhile Char.isWhitespace).reverse

/-- Python `str.strip()`. -/
def pyStrip (s : String) : String := ⟨stripList s.data⟩

/-- The normalization both query handlers apply first:
`query.string.strip().lower()`. -/
def normalize (s : String) : String := pyLower (pyStrip s)

/-- Acceptance of the compiled regex `^\s*(?P<query>\w+)\s*$`
(`Plugin.match_pattern` / `Plugin.word_match`): the whole string is
optional whitespace, one nonempty run of word characters, then optional
whitespace.  Because word characters and whitespace are disjoint, greedy
drop/take-while decides this exactly. -/
def wordMatchList (l : List Char) : Bool :=
  !((l.dropWhile Char.isWhitespace).takeWhile isWordChar).isEmpty &&
    ((l.dropWhile Char.isWhitespace).dropWhile isWordChar).all Char.isWhitespace

/-- `self.word_match.match(s)` succeeded. -/
def word_match (s : String) : Bool := wordMatchList s.data

/-- Python's substring operator `needle in hay` on character lists. -/
def containsSub (needle : List Char) : List Char → Bool
  | [] => needle.isEmpty
  | c :: rest => needle.isPrefixOf (c :: rest) || containsSub needle rest

/-- Python's `needle in hay` for strings. -/
def strContains (hay needle : String) : Bool := containsSub needle.data hay.data

/-- One value of the `settings_pages` table. -/
structure PageInfo where
  title : String
  description : String
  command : List String
deriving DecidableEq

/-- An action attached to a result item.  The source's `Action` holds an
id, a caption and the zero-argument callable
`lambda cmd=page_info["command"]: subprocess.Popen(cmd)`; the embedding
records the argument vector `cmd` that invoking the callable would spawn. -/
structure Action where
  id : String
  text : String
  command : List String
deriving DecidableEq

/-- The `StandardItem` record handed back to the host launcher. -/
structure StandardItem where
  id : String
  text : String
  subtext : String
  iconUrls : List String
  actions : List Action
deriving DecidableEq

/-- A global-query result: an item paired with a relevance score. -/
structure RankItem where
  item : StandardItem
  score : Nat
deriving DecidableEq

/-- `self.settings_pages`, in definition order.  Python dicts preserve
insertion order, so the ordered association list is the faithful model. -/
def settings_pages : List (String × PageInfo) :=
  [ ("wifi",
     { title := "Wi-Fi", description := "Configure wireless networks",
       command := ["gnome-control-center", "wifi"] }),
    ("network",
     { title := "Network", description := "Configure network connections",
       command := ["gnome-control-center", "network"] }),
    ("bluetooth",
     { title := "Bluetooth", description := "Configure Bluetooth devices",
       command := ["gnome-control-center", "bluetooth"] }),
    ("display",
     { title := "Displays", description := "Configure monitors and displays",
       command := ["gnome-control-center", "display"] }),
    ("sound",
     { title := "Sound", description := "Configure audio devices and volume",
       command := ["gnome-control-center", "sound"] }),
    ("power",
     { title := "Power", description := "Configure power saving options",
       command := ["gnome-control-center", "power"] }),
    ("multitasking",
     { title := "Multitasking", description := "Multitasking gestures and prefrences",
       command := ["gnome-control-center", "multitasking"] }),
    ("appearance",
     { title := "Appearance", description := "Configure system theme and appearance",
       command := ["gnome-control-center", "appearance"] }),
    ("applications",
     { title := "Applications", description := "Manage installed applications",
       command := ["gnome-control-center", "applications"] }),
    ("notifications",
     { title := "Notifications", description := "Configure system notifications",
       command := ["gnome-control-center", "notifications"] }),
    ("online-accounts",
     { title := "Online Accounts", description := "Configure online service accounts",
       command := ["gnome-control-center", "online-accounts"] }),
    ("sharing",
     { title := "Sharing", description := "Configure file and media sharing",
       command := ["gnome-control-center", "sharing"] }),
    ("mouse",
     { title := "Mouse & Touchpad", description := "Configure pointing devices",
       command := ["gnome-control-center", "mouse"] }),
    ("keyboard",
     { title := "Keyboard", description := "Configure keyboard shortcuts and behavior",
       command := ["gnome-control-center", "keyboard"] }),
    ("color",
     { title := "Color", description := "Adjust the Display Color Settings",
       command := ["gnome-control-center", "color"] }),
    ("printers",
     { title := "Printers", description := "Configure printers",
       command := ["gnome-control-center", "printers"] }),
    ("accessibility",
     { title := "Accessibility", description := "Configure accessibility options",
       command := ["gnome-control-center", "universal-access"] }),
    ("privacy",
     { title := "Privacy & Security", description := "Configure privacy and security options",
       command := ["gnome-control-center", "privacy"] }),
    ("system",
     { title := "System Settings", description := "View system settings and information",
       command := ["gnome-control-center", "system"] }),
    ("region",
     { title := "Region & Language", description := "Configure locale and language",
       command := ["gnome-control-center", "region"] }),
    ("datetime",
     { title := "Date & Time", description := "Configure system clock and timezone",
       command := ["gnome-control-center", "datetime"] }),
    ("users",
     { title := "Users", description := "Manage user accounts",
       command := ["gnome-control-center", "users"] }),
    ("about",
     { title := "About", description := "System Software and Hardware details",
       command := ["gnome-control-center", "about"] }) ]

/-- `self.icon_path = str(Path(__file__).parent / "settings.svg")`.  The
concrete value depends on the install location at run time; no claim
depends on it, only on its being one fixed string shared by every item. -/
def icon_path : String := "settings.svg"

/-- Python dict lookup `self.settings_pages[page_id]`; `none` models the
`KeyError` raised on a missing key. -/
def lookupPage (pid : String) : Option PageInfo :=
  (settings_pages.find? (fun p => p.1 == pid)).map Prod.snd

/-- The `StandardItem(...)` record that `Plugin._create_item_for_page`
builds from a page id and its table entry (the f-strings
`settings:{page_id}`, `open:{page_id}` and `Open {title}` become
concatenations). -/
def pageItem (pid : String) (info : PageInfo) : StandardItem :=
  { id := "settings:" ++ pid
    text := info.title
    subtext := info.description
    iconUrls := ["file:" ++ icon_path]
    actions := [{ id := "open:" ++ pid
                  text := "Open " ++ info.title
                  command := info.command }] }

/-- `Plugin._create_item_for_page`. -/
def createItemForPage (pid : String) : Option StandardItem :=
  (lookupPage pid).map (pageItem pid)

/-- The three-field test of `Plugin._get_matching_items`:
`query_string in page_id or query_string in title.lower() or
query_string in description.lower()`. -/
def pageMatches (q : String) (p : String × PageInfo) : Bool :=
  strContains p.1 q || strContains (pyLower p.2.title) q ||
    strContains (pyLower p.2.description) q

/-- `Plugin._get_matching_items`: all pages when the query is empty,
otherwise the pages passing `pageMatches`, each turned into an item, in
table order.  (`createItemForPage` never returns `none` here: the ids
come from iterating the table itself.) -/
def getMatchingItems (q : String) : List StandardItem :=
  if q = "" then settings_pages.filterMap (fun p => createItemForPage p.1)
  else (settings_pages.filter (fun p => pageMatches q p)).filterMap
    (fun p => createItemForPage p.1)

/-- `Plugin.handleTriggerQuery`: the items added to the query sink for
raw input `s`. -/
def handleTriggerQuery (s : String) : List StandardItem :=
  getMatchingItems (normalize s)

/-- `Plugin.handleGlobalQuery`: reject anything that is not a single
word, then require an exact key hit, returned with score 100. -/
def handleGlobalQuery (s : String) : List RankItem :=
  if !(word_match (normalize s)) then []
  else if settings_pages.any (fun p => p.1 == normalize s) then
    match createItemForPage (normalize s) with
    | some it => [{ item := it, score := 100 }]
    | none => []
  else []

/-- `Plugin.defaultTrigger`. -/
def defaultTrigger : String := "gs "

/-- `Plugin.synopsis`. -/
def synopsis : String := "<settings-page>"

/-! ### Character-class facts

ASCII lowercasing neither creates nor destroys word characters or
whitespace, so normalization commutes with the regex's character
classes. -/

/-- Lowercasing preserves membership in the `\w` class. -/
theorem isWordChar_pyLowerChar (c : Char) :
    isWordChar (pyLowerChar c) = isWordChar c := by
  unfold pyLowerChar
  split <;> rfl

/-- Lowercasing preserves whitespace-ness. -/
theorem isWhitespace_pyLowerChar (c : Char) :
    (pyLowerChar c).isWhitespace = c.isWhitespace := by
  unfold pyLowerChar
  split <;> rfl

/-! ### Facts about stripping -/

/-- The last character of a stripped string is not whitespace. -/
theorem stripList_last_not_ws {l : List Char} {c : Char}
    (h : (stripList l).getLast? = some c) : c.isWhitespace = false := by
  unfold stripList at h
  rw [List.getLast?_reverse] at h
  have hnot := List.head?_dropWhile_not Char.isWhitespace
    ((l.dropWhile Char.isWhitespace).reverse)
  rw [h] at hnot
  exact hnot

/-- The first character of a stripped string is not whitespace. -/
theorem stripList_head_not_ws {l : List Char} {c : Char}
    (h : (stripList l).head? = some c) : c.isWhitespace = false := by
  unfold stripList at h
  rw [List.head?_reverse] at h
  have hne : (l.dropWhile Char.isWhitespace).reverse.dropWhile Char.isWhitespace ≠ [] := by
    intro he
    rw [he] at h
    cases h
  obtain ⟨t, ht⟩ :=
    List.dropWhile_suffix (l := (l.dropWhile Char.isWhitespace).reverse) Char.isWhitespace
  have h2 : (l.dropWhile Char.isWhitespace).reverse.getLast? = some c := by
    rw [← ht, List.getLast?_append_of_ne_nil t hne]
    exact h
  rw [List.getLast?_reverse] at h2
  have hnot := List.head?_dropWhile_not Char.isWhitespace l
  rw [h2] at hnot
  exact hnot

/-- Stripping an all-whitespace string gives the empty string. -/
theorem stripList_eq_nil_of_all_ws {l : List Char}
    (h : l.all Char.isWhitespace = true) : stripList l = [] := by
  unfold stripList
  have h1 : l.dropWhile Char.isWhitespace = [] :=
    List.dropWhile_eq_nil_iff.mpr (fun x hx => List.all_eq_true.mp h x hx)
  rw [h1]
  rfl

/-! ### Facts about the word regex -/

/-- The single-word regex rejects a trimmed string that is empty or has a
character outside the word class: the word run stops at the offending
character, and everything after it cannot be all whitespace because the
string has no trailing whitespace. -/
theorem wordMatchList_eq_false {l : List Char}
    (hhead : ∀ c, l.head? = some c → c.isWhitespace = false)
    (hlast : ∀ c, l.getLast? = some c → c.isWhitespace = false)
    (hbad : l = [] ∨ ∃ c ∈ l, isWordChar c = false) :
    wordMatchList l = false := by
  rcases hbad with rfl | ⟨c, hc, hcw⟩
  · rfl
  · have hdw : l.dropWhile Char.isWhitespace = l := by
      cases l with
      | nil => rfl
      | cons a t =>
        have ha : Char.isWhitespace a = false := hhead a rfl
        exact List.dropWhile_cons_of_neg (by simp [ha])
    unfold wordMatchList
    rw [hdw]
    by_cases hr : l.dropWhile isWordChar = []
    · rw [List.dropWhile_eq_nil_iff] at hr
      exact absurd (hr c hc) (by simp [hcw])
    · have hlast2 : l.getLast? = (l.dropWhile isWordChar).getLast? := by
        conv_lhs => rw [← List.takeWhile_append_dropWhile (p := isWordChar) (l := l)]
        rw [List.getLast?_append_of_ne_nil _ hr]
      obtain ⟨d, hd⟩ : ∃ d, (l.dropWhile isWordChar).getLast? = some d := by
        cases hg : (l.dropWhile isWordChar).getLast? with
        | some d => exact ⟨d, rfl⟩
        | none => exact absurd (List.getLast?_eq_none_iff.mp hg) hr
      have hdws : d.isWhitespace = false := hlast d (hlast2.trans hd)
      have hmem : d ∈ l.dropWhile isWordChar := List.mem_of_getLast?_eq_some hd
      have hall : (l.dropWhile isWordChar).all Char.isWhitespace = false := by
        cases hv : (l.dropWhile isWordChar).all Char.isWhitespace with
        | false => rfl
        | true => exact absurd (List.all_eq_true.mp hv d hmem) (by simp [hdws])
      rw [hall]
      exact Bool.and_false _

/-- The normalized form of a query whose stripped text is empty or
contains a non-word character fails the single-word regex. -/
theorem word_match_normalize_false {s : String}
    (h : stripList s.data = [] ∨ ∃ c ∈ stripList s.data, isWordChar c = false) :
    word_match (normalize s) = false := by
  show wordMatchList ((stripList s.data).map pyLowerChar) = false
  apply wordMatchList_eq_false
  · intro c hc
    rw [List.head?_map] at hc
    cases hh : (stripList s.data).head? with
    | none => rw [hh] at hc; cases hc
    | some a =>
      rw [hh] at hc
      have hca : pyLowerChar a = c := by
        simpa using hc
      rw [← hca, isWhitespace_pyLowerChar]
      exact stripList_head_not_ws hh
  · intro c hc
    rw [List.getLast?_map] at hc
    cases hh : (stripList s.data).getLast? with
    | none => rw [hh] at hc; cases hc
    | some a =>
      rw [hh] at hc
      have hca : pyLowerChar a = c := by
        simpa using hc
      rw [← hca, isWhitespace_pyLowerChar]
      exact stripList_last_not_ws hh
  · rcases h with he | ⟨c, hc, hcw⟩
    · left
      rw [he]
      rfl
    · right
      exact ⟨pyLowerChar c, List.mem_map_of_mem _ hc, by
        rw [isWordChar_pyLowerChar]; exact hcw⟩

/-! ### Facts about the catalog and lookup -/

/-- The catalog's 23 keys are pairwise distinct. -/
theorem settings_keys_nodup : (settings_pages.map Prod.fst).Nodup := by decide

/-- In an association list with distinct keys, `find?` on an entry's key
returns that entry. -/
theorem find?_key_eq {α β : Type} [BEq α] [LawfulBEq α] (l : List (α × β))
    (hnd : (l.map Prod.fst).Nodup) {p : α × β} (hp : p ∈ l) :
    l.find? (fun x => x.1 == p.1) = some p := by
  induction l with
  | nil => cases hp
  | cons a t ih =>
    rw [List.map_cons, List.nodup_cons] at hnd
    rcases List.mem_cons.mp hp with rfl | hpt
    · exact List.find?_cons_of_pos _ (by simp)
    · have hne : a.1 ≠ p.1 := by
        intro he
        exact hnd.1 (he ▸ List.mem_map_of_mem Prod.fst hpt)
      rw [List.find?_cons_of_neg _ (by simp [hne])]
      exact ih hnd.2 hpt

/-- Looking up a catalog entry's own key finds its record. -/
theorem lookupPage_eq {p : String × PageInfo} (hp : p ∈ settings_pages) :
    lookupPage p.1 = some p.2 := by
  unfold lookupPage
  rw [find?_key_eq settings_pages settings_keys_nodup hp]
  rfl

/-- `_create_item_for_page` on a catalog entry's key builds that entry's item. -/
theorem createItemForPage_eq {p : String × PageInfo} (hp : p ∈ settings_pages) :
    createItemForPage p.1 = some (pageItem p.1 p.2) := by
  unfold createItemForPage
  rw [lookupPage_eq hp]
  rfl

/-- `filterMap` of an everywhere-`some` function is a `map`. -/
theorem filterMap_eq_map_of_some {α β : Type} (l : List α) (f : α → Option β)
    (g : α → β) (h : ∀ a ∈ l, f a = some (g a)) : l.filterMap f = l.map g := by
  induction l with
  | nil => rfl
  | cons a t ih =>
    rw [List.filterMap_cons, h a (List.mem_cons_self a t), List.map_cons,
      ih (fun x hx => h x (List.mem_cons_of_mem _ hx))]

/-- The empty-query branch of `_get_matching_items` lists the whole
catalog, in order. -/
theorem getMatchingItems_empty :
    getMatchingItems "" = settings_pages.map (fun p => pageItem p.1 p.2) := by
  unfold getMatchingItems
  rw [if_pos rfl]
  exact filterMap_eq_map_of_some _ _ _ (fun p hp => createItemForPage_eq hp)

/-- The nonempty-query branch of `_get_matching_items` is filter-then-build. -/
theorem getMatchingItems_ne_empty {q : String} (hq : q ≠ "") :
    getMatchingItems q =
      (settings_pages.filter (fun p => pageMatches q p)).map
        (fun p => pageItem p.1 p.2) := by
  unfold getMatchingItems
  rw [if_neg hq]
  exact filterMap_eq_map_of_some _ _ _
    (fun p hp => createItemForPage_eq (List.mem_of_mem_filter hp))

/-- Counting entries by key in a distinct-key association list isolates
the one entry with that key. -/
theorem countP_key {α β : Type} [BEq α] [LawfulBEq α] (b : α × β → Bool)
    (l : List (α × β)) (hnd : (l.map Prod.fst).Nodup) {p : α × β} (hp : p ∈ l) :
    l.countP (fun x => (x.1 == p.1) && b x) = if b p then 1 else 0 := by
  induction l with
  | nil => cases hp
  | cons a t ih =>
    rw [List.map_cons, List.nodup_cons] at hnd
    rw [List.countP_cons]
    rcases List.mem_cons.mp hp with rfl | hpt
    · have h0 : t.countP (fun x => (x.1 == p.1) && b x) = 0 := by
        rw [List.countP_eq_zero]
        intro x hx
        have hne : x.1 ≠ p.1 := by
          intro he
          exact hnd.1 (he ▸ List.mem_map_of_mem Prod.fst hx)
        simp [hne]
      rw [h0]
      simp
    · have hne : (a.1 == p.1) = false := by
        have : a.1 ≠ p.1 := by
          intro he
          exact hnd.1 (he ▸ List.mem_map_of_mem Prod.fst hpt)
        simp [this]
      rw [ih hnd.2 hpt]
      simp [hne]

/-- Item ids share the fixed prefix `settings:`, so comparing ids
compares page ids. -/
theorem settingsId_inj (a c : String) :
    (("settings:" ++ a) == ("settings:" ++ c)) = (a == c) := by
  by_cases h : a = c
  · subst h
    simp
  · have hne : ("settings:" ++ a) ≠ ("settings:" ++ c) := by
      intro he
      apply h
      apply String.ext
      have hd := congrArg String.data he
      rw [String.data_append, String.data_append] at hd
      exact List.append_cancel_left hd
    simp [h, hne]

/-- A list is a substring of itself. -/
theorem containsSub_refl (l : List Char) : containsSub l l = true := by
  cases l with
  | nil => rfl
  | cons c t =>
    unfold containsSub
    rw [Bool.or_eq_true]
    left
    simp

/-! ### The claims -/

/-- Claim C1, counterexample: `"online-accounts"` is a catalog key, yet
the global exact search on it returns no result at all — its hyphen is
outside the `\w` class, so the single-word regex rejects the query
before the key lookup is reached. -/
theorem exactGlobal_hyphen_key_miss :
    ("online-accounts" ∈ settings_pages.map Prod.fst) ∧
      handleGlobalQuery "online-accounts" = [] := by decide

/-- Claim C1 (amended): for every catalog key made only of word
characters — all 22 keys other than the hyphenated `"online-accounts"` —
the global exact search returns exactly one result, the item for that
key with score 100. -/
theorem exactGlobal_key_hit :
    ∀ p ∈ settings_pages, p.1.data.all isWordChar = true →
      handleGlobalQuery p.1 = [{ item := pageItem p.1 p.2, score := 100 }] := by
  decide

/-- Witness for `exactGlobal_key_hit` at the key `"network"`. -/
theorem exactGlobal_key_hit_witness :
    handleGlobalQuery "network" =
      [{ item := pageItem "network"
           { title := "Network", description := "Configure network connections",
             command := ["gnome-control-center", "network"] },
         score := 100 }] :=
  exactGlobal_key_hit
    ("network",
      { title := "Network", description := "Configure network connections",
        command := ["gnome-control-center", "network"] })
    (by decide) (by decide)

/-- Claim C2, counterexample: `" network "` contains whitespace, yet the
global exact search does not return the empty sequence — normalization
strips the outer whitespace first and the remaining word is a key. -/
theorem exactGlobal_whitespace_cex :
    (' ' ∈ " network ".data) ∧
      handleGlobalQuery " network " =
        [{ item := pageItem "network"
             { title := "Network", description := "Configure network connections",
               command := ["gnome-control-center", "network"] },
           score := 100 }] := by decide

/-- Claim C2 (amended): every input whose stripped form is empty or
contains any character outside the word class (so in particular every
input with embedded whitespace, punctuation outside `\w`, the empty
string and multi-word strings) yields no global results. -/
theorem exactGlobal_nonword_empty (s : String)
    (h : (pyStrip s).data = [] ∨ ∃ c ∈ (pyStrip s).data, isWordChar c = false) :
    handleGlobalQuery s = [] := by
  have hw : word_match (normalize s) = false := word_match_normalize_false h
  simp [handleGlobalQuery, hw]

/-- Witness for `exactGlobal_nonword_empty` at `"gnome settings"`. -/
theorem exactGlobal_nonword_empty_witness :
    (∃ c ∈ (pyStrip "gnome settings").data, isWordChar c = false) ∧
      handleGlobalQuery "gnome settings" = [] :=
  ⟨by decide, exactGlobal_nonword_empty "gnome settings" (Or.inr (by decide))⟩

/-- Claim C3: on an empty or whitespace-only query the triggered search
returns one item per catalog entry, in catalog-definition order, so the
count equals the catalog size. -/
theorem trigger_empty_all (s : String)
    (h : s.data.all Char.isWhitespace = true) :
    handleTriggerQuery s = settings_pages.map (fun p => pageItem p.1 p.2) ∧
      (handleTriggerQuery s).length = settings_pages.length := by
  have hstrip : stripList s.data = [] := stripList_eq_nil_of_all_ws h
  have hnorm : normalize s = "" := by
    apply String.ext
    show (stripList s.data).map pyLowerChar = []
    rw [hstrip]
    rfl
  have h1 : handleTriggerQuery s = settings_pages.map (fun p => pageItem p.1 p.2) := by
    show getMatchingItems (normalize s) = _
    rw [hnorm]
    exact getMatchingItems_empty
  exact ⟨h1, by rw [h1, List.length_map]⟩

/-- Witness for `trigger_empty_all` at the whitespace-only query `" "`. -/
theorem trigger_empty_all_witness :
    (" ".data.all Char.isWhitespace = true) ∧
      (handleTriggerQuery " ").length = settings_pages.length :=
  ⟨by decide, (trigger_empty_all " " (by decide)).2⟩

/-- Claim C4: for a query with nonempty normalized form `q`, the
triggered search returns exactly the catalog entries whose id,
lower-cased title or lower-cased description has `q` as a substring, in
catalog-definition order; each matching entry contributes exactly one
item (even when several fields match) and each non-matching entry
contributes none. -/
theorem trigger_substring_search (s : String) (hq : normalize s ≠ "") :
    handleTriggerQuery s =
      (settings_pages.filter (fun p => pageMatches (normalize s) p)).map
        (fun p => pageItem p.1 p.2) ∧
      ∀ p ∈ settings_pages,
        (handleTriggerQuery s).countP (fun it => it.id == "settings:" ++ p.1) =
          if pageMatches (normalize s) p then 1 else 0 := by
  have h1 : handleTriggerQuery s =
      (settings_pages.filter (fun p => pageMatches (normalize s) p)).map
        (fun p => pageItem p.1 p.2) :=
    getMatchingItems_ne_empty hq
  refine ⟨h1, ?_⟩
  intro p hp
  rw [h1, List.countP_map, List.countP_filter]
  have hcongr : ∀ x ∈ settings_pages,
      (((fun it => it.id == "settings:" ++ p.1) ∘ fun p => pageItem p.1 p.2) x &&
          pageMatches (normalize s) x) = true ↔
        ((x.1 == p.1) && pageMatches (normalize s) x) = true := by
    intro x hx
    show ((("settings:" ++ x.1) == ("settings:" ++ p.1)) &&
        pageMatches (normalize s) x) = true ↔ _
    rw [settingsId_inj]
  rw [List.countP_congr hcongr]
  exact countP_key _ settings_pages settings_keys_nodup hp

/-- Witness for `trigger_substring_search` at the query `"wifi"`:
the wifi entry is matched by exactly one item. -/
theorem trigger_substring_search_witness :
    (normalize "wifi" ≠ "") ∧
      (handleTriggerQuery "wifi").countP
        (fun it => it.id == "settings:" ++ "wifi") = 1 := by
  refine ⟨by decide, ?_⟩
  have h := (trigger_substring_search "wifi" (by decide)).2
    ("wifi",
      { title := "Wi-Fi", description := "Configure wireless networks",
        command := ["gnome-control-center", "wifi"] })
    (by decide)
  exact h.trans (by decide)

/-- Claim C5: a single-word query whose normalized form is no catalog
key yields the empty result sequence — a plain lookup miss, with no
failure path (the embedding is a total function into lists). -/
theorem exactGlobal_miss_empty (s : String)
    (hw : word_match (normalize s) = true)
    (hmiss : ∀ p ∈ settings_pages, p.1 ≠ normalize s) :
    handleGlobalQuery s = [] := by
  have hany : settings_pages.any (fun p => p.1 == normalize s) = false := by
    rw [List.any_eq_false]
    intro x hx
    simp [hmiss x hx]
  simp [handleGlobalQuery, hw, hany]

/-- Witness for `exactGlobal_miss_empty` at the non-key word `"foo"`. -/
theorem exactGlobal_miss_empty_witness :
    (word_match (normalize "foo") = true) ∧ handleGlobalQuery "foo" = [] :=
  ⟨by decide, exactGlobal_miss_empty "foo" (by decide) (by decide)⟩

/-- Claim C6: `handleGlobalQuery "network"` is exactly the singleton
holding the network item with score 100, and `handleGlobalQuery "net"`
is empty — no partial matching in global mode. -/
theorem exactGlobal_network_scenario :
    handleGlobalQuery "network" =
      [{ item := pageItem "network"
           { title := "Network", description := "Configure network connections",
             command := ["gnome-control-center", "network"] },
         score := 100 }] ∧
      handleGlobalQuery "net" = [] := by decide

/-- Claim C7: the triggered search for `"wifi"` returns exactly one
item, whose primary text is `"Wi-Fi"`. -/
theorem trigger_wifi_scenario :
    handleTriggerQuery "wifi" =
      [pageItem "wifi"
        { title := "Wi-Fi", description := "Configure wireless networks",
          command := ["gnome-control-center", "wifi"] }] ∧
      (handleTriggerQuery "wifi").map (fun it => it.text) = ["Wi-Fi"] := by decide

/-- Claim C8: for every catalog entry, the built item carries the
`settings:`-prefixed stable id, the title as primary text, the
description as secondary text, the one fixed icon, and exactly one
action whose command vector is the record's command; in particular the
`"display"` action's argument vector is
`["gnome-control-center", "display"]`. -/
theorem buildItem_fields :
    (∀ p ∈ settings_pages,
      createItemForPage p.1 = some
        { id := "settings:" ++ p.1, text := p.2.title, subtext := p.2.description,
          iconUrls := ["file:" ++ icon_path],
          actions := [{ id := "open:" ++ p.1, text := "Open " ++ p.2.title,
                        command := p.2.command }] }) ∧
      (createItemForPage "display").map (fun it => it.actions.map (fun a => a.command)) =
        some [["gnome-control-center", "display"]] := by
  constructor
  · intro p hp
    rw [createItemForPage_eq hp]
    rfl
  · decide

/-- Witness for `buildItem_fields` at the entry `"display"`. -/
theorem buildItem_fields_witness :
    createItemForPage "display" = some
      { id := "settings:" ++ "display", text := "Displays",
        subtext := "Configure monitors and displays",
        iconUrls := ["file:" ++ icon_path],
        actions := [{ id := "open:" ++ "display", text := "Open " ++ "Displays",
                      command := ["gnome-control-center", "display"] }] } :=
  buildItem_fields.1
    ("display",
      { title := "Displays", description := "Configure monitors and displays",
        command := ["gnome-control-center", "display"] })
    (by decide)

/-- Claim C9: every catalog command is the two-element vector
`["gnome-control-center", arg]` where `arg` is the entry's id, except
for `"accessibility"` whose argument is `"universal-access"`. -/
theorem catalog_command_invariant :
    ∀ p ∈ settings_pages,
      p.2.command =
        ["gnome-control-center",
          if p.1 = "accessibility" then "universal-access" else p.1] := by
  decide

/-- Witness for `catalog_command_invariant` at the exceptional entry
`"accessibility"`. -/
theorem catalog_command_invariant_witness :
    (PageInfo.command
        { title := "Accessibility", description := "Configure accessibility options",
          command := ["gnome-control-center", "universal-access"] }) =
      ["gnome-control-center", "universal-access"] :=
  (catalog_command_invariant
    ("accessibility",
      { title := "Accessibility", description := "Configure accessibility options",
        command := ["gnome-control-center", "universal-access"] })
    (by decide)).trans (by decide)

/-- Claim C10: whatever the raw query, every item the global exact
search returns also appears among the triggered search's results for
the same query — an exact key hit is in particular a substring hit on
the id field. -/
theorem global_subset_trigger (s : String) :
    ∀ r ∈ handleGlobalQuery s, r.item ∈ handleTriggerQuery s := by
  intro r hr
  unfold handleGlobalQuery at hr
  cases hw : word_match (normalize s) with
  | false =>
    rw [hw] at hr
    simp at hr
  | true =>
    rw [hw] at hr
    simp only [Bool.not_true] at hr
    rw [if_neg (by simp)] at hr
    cases hany : settings_pages.any (fun p => p.1 == normalize s) with
    | false =>
      rw [hany] at hr
      simp at hr
    | true =>
      rw [hany, if_pos rfl] at hr
      cases hfind : settings_pages.find? (fun p => p.1 == normalize s) with
      | none =>
        unfold createItemForPage lookupPage at hr
        rw [hfind] at hr
        simp at hr
      | some p0 =>
        unfold createItemForPage lookupPage at hr
        rw [hfind] at hr
        have hrit : r = { item := pageItem (normalize s) p0.2, score := 100 } := by
          simpa using hr
        have hp0mem : p0 ∈ settings_pages := List.mem_of_find?_eq_some hfind
        have hp0key : p0.1 = normalize s := by
          have := List.find?_some hfind
          simpa using this
        have hqne : normalize s ≠ "" := by
          intro h0
          rw [h0] at hw
          exact absurd hw (by decide)
        have hmatch : pageMatches (normalize s) p0 = true := by
          unfold pageMatches strContains
          rw [hp0key, containsSub_refl]
          simp
        show r.item ∈ handleTriggerQuery s
        unfold handleTriggerQuery
        rw [getMatchingItems_ne_empty hqne]
        apply List.mem_map.mpr
        refine ⟨p0, List.mem_filter.mpr ⟨hp0mem, hmatch⟩, ?_⟩
        rw [hrit, hp0key]

/-- Witness for `global_subset_trigger`: the global result for
`"network"` also shows up in the triggered results for `"network"`. -/
theorem global_subset_trigger_witness :
    (pageItem "network"
        { title := "Network", description := "Configure network connections",
          command := ["gnome-control-center", "network"] }) ∈
      handleTriggerQuery "network" :=
  global_subset_trigger "network"
    { item := pageItem "network"
        { title := "Network", description := "Configure network connections",
          command := ["gnome-control-center", "network"] },
      score := 100 }
    (by decide)

end GnomeSettings
